import Mathlib

/-!
Verification of the invoice-workflow core of this repository: the validator
(`modules/validator.py`), the workflow orchestrator (`modules/workflow.py`),
the record store (`modules/data_manager.py`), the currency formatting of the
layout engine (`modules/invoice_gen.py`) and the declaration word-wrapping of
the application-form renderer (`modules/kyc_manager.py`).

Modelling conventions:
- Python strings are Lean `String`s; the character classes `\d`, `[a-zA-Z]`,
  `str.isdigit` are modelled over ASCII.
- Python `re.match` with a pattern of the shape `^...$` matches the whole
  string, except that `$` also matches just before one trailing newline at
  the end of the string (documented Python `re` semantics); `pyFullMatch`
  models exactly that.
- Monetary values are exact rationals `ℚ`.
- Exception-raising collaborators (the invoice generator, the email handler)
  are oracles returning `Except String α`, where `.error e` models a raised
  exception whose `str(e)` is `e`.
- `datetime.now().strftime(...)` is an opaque `now : String` parameter.
-/

/-- Python `str.isdigit` restricted to ASCII digits: true iff the string is
nonempty and every character is a digit. -/
def pyIsdigit (l : List Char) : Bool := !l.isEmpty && l.all Char.isDigit

/-- Python `bool(re.match(p, s))` for a pattern `p = ^core$`: the core must
match the whole string, or the whole string minus one trailing newline
(`$` matches at the end or just before a final newline). -/
def pyFullMatch (core : List Char → Bool) (s : String) : Bool :=
  core s.data || (s.data.getLast? == some '\n' && core s.data.dropLast)

namespace InvoiceConfig

/-- Constant `InvoiceConfig.VAT_RATE` from `config/invoice_config.py`. -/
def VAT_RATE : ℚ := 5 / 100

/-- Constant `InvoiceConfig.TERMS` from `config/invoice_config.py`. -/
def TERMS : String := "Due on Receipt"

end InvoiceConfig

/-- The `customer` dict of a `WorkflowState` (`app.py`), with the seven keys
the application always populates. -/
structure Customer where
  invoice_number : String
  bill_to_party_name : String
  bill_to_party_email : String
  bill_to_party_address_1 : String
  bill_to_party_address_2 : String
  bill_to_party_trn : String
  tenant_name : String
  deriving DecidableEq, Repr

/-- The `invoice` dict of a `WorkflowState` (`app.py`); `terms` and
`vat_rate` are carried for rows read back from the store. -/
structure Invoice where
  invoice_date : String
  property_name : String
  rental_price : ℚ
  commission_rate : ℚ
  tax_amount : ℚ
  total_amount : ℚ
  status : String
  payment_date : String
  terms : String
  vat_rate : ℚ
  deriving DecidableEq, Repr

/-- The `validation_status` dict set by `WorkflowManager.validate_step`. -/
structure ValidationStatus where
  is_valid : Bool
  validated_at : String
  deriving DecidableEq, Repr

/-- The `invoice_creation_status` dict set by
`WorkflowManager.generate_invoice_step`. -/
structure CreationStatus where
  is_generated : Bool
  generated_at : String
  file_path : String
  deriving DecidableEq, Repr

/-- The `email_notification_status` dict set by
`WorkflowManager.send_notification_step`. -/
structure NotificationStatus where
  is_sent : Bool
  sent_at : String
  recipient : String
  deriving DecidableEq, Repr

/-- The pydantic `WorkflowState` model of `app.py`: three optional
stage-result slots, one optional `error` slot, a `completed` flag. -/
structure WorkflowState where
  customer : Customer
  invoice : Invoice
  validation_status : Option ValidationStatus := none
  invoice_creation_status : Option CreationStatus := none
  email_notification_status : Option NotificationStatus := none
  error : Option String := none
  completed : Bool := false
  deriving DecidableEq, Repr

/-! ## `modules/validator.py` -/

/-- Character class `[a-zA-Z0-9._%+-]` of the local part of the email
pattern. -/
def isLocalChar (c : Char) : Bool :=
  c.isAlphanum || c == '.' || c == '_' || c == '%' || c == '+' || c == '-'

/-- Character class `[a-zA-Z0-9.-]` of the domain part of the email
pattern. -/
def isDomainChar (c : Char) : Bool := c.isAlphanum || c == '.' || c == '-'

/-- The domain part `[a-zA-Z0-9.-]+\.[a-zA-Z]{2,}` of the email pattern:
some dot splits the list into a nonempty prefix over the domain class and a
suffix of at least two letters. -/
def emailDomainOk (dom : List Char) : Bool :=
  (List.range dom.length).any fun p =>
    dom[p]? == some '.' && decide (1 ≤ p) &&
      (dom.take p).all isDomainChar &&
      (dom.drop (p + 1)).all Char.isAlpha &&
      decide (p + 3 ≤ dom.length)

/-- Whole-string core of the email pattern
`^[a-zA-Z0-9._%+-]+@[a-zA-Z0-9.-]+\.[a-zA-Z]{2,}$`: since `@` belongs to
neither character class, the local part is exactly the segment before the
first `@`. -/
def emailCore (l : List Char) : Bool :=
  let loc := l.takeWhile (fun c => c != '@')
  match l.dropWhile (fun c => c != '@') with
  | '@' :: dom => !loc.isEmpty && loc.all isLocalChar && emailDomainOk dom
  | _ => false

/-- Model of `DataValidator.validate_email`: `bool(re.match(r'^[a-zA-Z0-9._%+-]+@[a-zA-Z0-9.-]+\.[a-zA-Z]\x7b2,\x7d$', email))`. -/
def validate_email (email : String) : Bool := pyFullMatch emailCore email

/-- Model of `DataValidator.validate_vat_number`: `bool(re.match(r'^\d\x7b15\x7d$', vat_number))`. -/
def validate_vat_number (vat_number : String) : Bool :=
  pyFullMatch (fun l => decide (l.length = 15) && l.all Char.isDigit) vat_number

/-- Whole-string core of the pattern `VREB\d\x7b4\x7d`: the first four
characters are `VREB`, the total length is eight, and the remaining four
characters are digits. -/
def vrebCore (l : List Char) : Bool :=
  l.take 4 == ['V', 'R', 'E', 'B'] && decide (l.length = 8) &&
    (l.drop 4).all Char.isDigit

/-- Model of `DataValidator.validate_invoice_number`: `bool(re.match(r'^VREB\d\x7b4\x7d$', invoice_number))`. -/
def validate_invoice_number (invoice_number : String) : Bool :=
  pyFullMatch vrebCore invoice_number

/-- Split a character list at `/`, as `'1/2/2024'.split`-style decomposition
used to model `datetime.strptime(date_str, '%d/%m/%Y')`. -/
def splitSlash : List Char → List (List Char)
  | [] => [[]]
  | c :: rest =>
    if c = '/' then [] :: splitSlash rest
    else
      match splitSlash rest with
      | [] => [[c]]
      | g :: gs => (c :: g) :: gs

/-- Decimal value of a digit list. -/
def digitsToNat (l : List Char) : Nat :=
  l.foldl (fun a c => a * 10 + (c.toNat - 48)) 0

/-- Gregorian leap year, as Python's `calendar`/`datetime` use. -/
def isLeapYear (y : Nat) : Bool :=
  y % 4 == 0 && (y % 100 != 0 || y % 400 == 0)

/-- Days in a month for `datetime`'s day-range check. -/
def daysInMonth (m y : Nat) : Nat :=
  if m = 2 then (if isLeapYear y then 29 else 28)
  else if m = 4 ∨ m = 6 ∨ m = 9 ∨ m = 11 then 30
  else 31

/-- CPython's `_strptime` regex for `%d`:
`3[01]|[12]\d|0[1-9]|[1-9]| [1-9]` — two digits up to 31, a nonzero single
digit, or a space-padded nonzero single digit. -/
def pyDayMatch : List Char → Bool
  | [c] => c.isDigit && c != '0'
  | [c1, c2] =>
    (c1 == ' ' && c2.isDigit && c2 != '0') ||
    (c1 == '3' && (c2 == '0' || c2 == '1')) ||
    ((c1 == '1' || c1 == '2') && c2.isDigit) ||
    (c1 == '0' && c2.isDigit && c2 != '0')
  | _ => false

/-- CPython's `_strptime` regex for `%m`: `1[0-2]|0[1-9]|[1-9]` — two
digits up to 12 or a nonzero single digit (no space padding). -/
def pyMonthMatch : List Char → Bool
  | [c] => c.isDigit && c != '0'
  | [c1, c2] =>
    (c1 == '1' && (c2 == '0' || c2 == '1' || c2 == '2')) ||
    (c1 == '0' && c2.isDigit && c2 != '0')
  | _ => false

/-- Model of `DataValidator.validate_date_format`: true iff
`datetime.strptime(date_str, '%d/%m/%Y')` succeeds. The slashes are
literal and the whole string must be consumed; since no alternative of
`%d`/`%m` and no part of `%Y` can match a slash, the string splits at its
slashes into a `%d` part (`pyDayMatch`), an `%m` part (`pyMonthMatch`) and
a `%Y` part (exactly four digits, per CPython's `\d\d\d\d`). The parsed
values must then form a real `datetime` date: the year at least `MINYEAR`
(1; four digits bound it by 9999) and the day within the month (the
regexes already bound the day by 31 and the month by 12). -/
def validate_date_format (date_str : String) : Bool :=
  match splitSlash date_str.data with
  | [d, m, y] =>
    pyDayMatch d && pyMonthMatch m &&
    decide (y.length = 4) && y.all Char.isDigit &&
    (let dd := digitsToNat (d.dropWhile fun c => c == ' ')
     let mm := digitsToNat m
     let yy := digitsToNat y
     decide (1 ≤ yy) && decide (dd ≤ daysInMonth mm yy))
  | _ => false

/-- The error list built by `DataValidator.validate_workflow_state`, one
independent check after another in source order; each check appends its
message when its condition fails (`not customer.get(field)` is the
empty-string test on string fields and the zero test on numeric fields). -/
def wfErrors (s : WorkflowState) : List String :=
  (if s.customer.invoice_number = "" then ["Invoice number is required"] else []) ++
  (if s.customer.bill_to_party_name = "" then ["Bill to party name is required"] else []) ++
  (if s.customer.bill_to_party_email = "" then ["Bill to party email is required"] else []) ++
  (if s.customer.bill_to_party_address_1 = "" then ["Bill to party address line 1 is required"] else []) ++
  (if s.customer.bill_to_party_address_2 = "" then ["Bill to party address line 2 is required"] else []) ++
  (if s.customer.bill_to_party_trn = "" then ["Bill to party TRN is required"] else []) ++
  (if s.customer.tenant_name = "" then ["Tenant name is required"] else []) ++
  (if s.customer.invoice_number ≠ "" ∧ validate_invoice_number s.customer.invoice_number = false then
    ["Invalid invoice number format (should be VREB followed by 4 digits)"] else []) ++
  (if s.customer.bill_to_party_email ≠ "" ∧ validate_email s.customer.bill_to_party_email = false then
    ["Invalid email format"] else []) ++
  (if s.customer.bill_to_party_trn ≠ "" ∧ validate_vat_number s.customer.bill_to_party_trn = false then
    ["Invalid TRN format (should be 15 digits)"] else []) ++
  (if s.invoice.invoice_date = "" then ["Invoice date is required"] else []) ++
  (if s.invoice.property_name = "" then ["Property name is required"] else []) ++
  (if s.invoice.rental_price = 0 then ["Rental price is required"] else []) ++
  (if s.invoice.commission_rate = 0 then ["Commission rate is required"] else []) ++
  (if s.invoice.tax_amount = 0 then ["Tax amount is required"] else []) ++
  (if s.invoice.total_amount = 0 then ["Total amount is required"] else []) ++
  (if s.invoice.invoice_date ≠ "" ∧ validate_date_format s.invoice.invoice_date = false then
    ["Invalid invoice date format (should be DD/MM/YYYY)"] else [])

/-- Model of `DataValidator.validate_workflow_state`: accumulates all rule violations
and returns `errors if errors else None`. -/
def validate_workflow_state (s : WorkflowState) : Option (List String) :=
  if wfErrors s = [] then none else some (wfErrors s)

/-- The independent rule set checked by `validate_workflow_state`, in source
order, as (passing check, violation message) pairs. -/
def wfRules : List ((WorkflowState → Bool) × String) :=
  [ (fun s => !(s.customer.invoice_number == ""), "Invoice number is required"),
    (fun s => !(s.customer.bill_to_party_name == ""), "Bill to party name is required"),
    (fun s => !(s.customer.bill_to_party_email == ""), "Bill to party email is required"),
    (fun s => !(s.customer.bill_to_party_address_1 == ""), "Bill to party address line 1 is required"),
    (fun s => !(s.customer.bill_to_party_address_2 == ""), "Bill to party address line 2 is required"),
    (fun s => !(s.customer.bill_to_party_trn == ""), "Bill to party TRN is required"),
    (fun s => !(s.customer.tenant_name == ""), "Tenant name is required"),
    (fun s => (s.customer.invoice_number == "") || validate_invoice_number s.customer.invoice_number,
      "Invalid invoice number format (should be VREB followed by 4 digits)"),
    (fun s => (s.customer.bill_to_party_email == "") || validate_email s.customer.bill_to_party_email,
      "Invalid email format"),
    (fun s => (s.customer.bill_to_party_trn == "") || validate_vat_number s.customer.bill_to_party_trn,
      "Invalid TRN format (should be 15 digits)"),
    (fun s => !(s.invoice.invoice_date == ""), "Invoice date is required"),
    (fun s => !(s.invoice.property_name == ""), "Property name is required"),
    (fun s => !(s.invoice.rental_price == 0), "Rental price is required"),
    (fun s => !(s.invoice.commission_rate == 0), "Commission rate is required"),
    (fun s => !(s.invoice.tax_amount == 0), "Tax amount is required"),
    (fun s => !(s.invoice.total_amount == 0), "Total amount is required"),
    (fun s => (s.invoice.invoice_date == "") || validate_date_format s.invoice.invoice_date,
      "Invalid invoice date format (should be DD/MM/YYYY)") ]

/-- Model of `DataValidator.calculate_tax_and_total`: tax is the commission rate
times `VAT_RATE`, the total is the commission rate plus the tax. -/
def calculate_tax_and_total (commission_rate : ℚ) : ℚ × ℚ :=
  let tax_amount := commission_rate * InvoiceConfig.VAT_RATE
  (tax_amount, commission_rate + tax_amount)

/-! ## `modules/invoice_gen.py` -/

/-- Decimal digits of `n`, least significant first (fuel-based so the kernel
can evaluate it; the fuel `n + 1` always suffices). -/
def natDigitsRevAux : Nat → Nat → List Nat
  | 0, _ => []
  | fuel + 1, n => if n = 0 then [] else n % 10 :: natDigitsRevAux fuel (n / 10)

/-- Decimal digits of `n`, least significant first. -/
def natDigitsRev (n : Nat) : List Nat := natDigitsRevAux (n + 1) n

/-- Chunks of three, from the front (fuel-based). -/
def chunk3Aux : Nat → List Nat → List (List Nat)
  | 0, _ => []
  | _, [] => []
  | fuel + 1, l => l.take 3 :: chunk3Aux fuel (l.drop 3)

/-- Python's thousands grouping of a nonnegative integer, as in
`f"\x7bamount:,.2f\x7d"`: digits grouped in threes from the right, groups
joined by commas. -/
def withCommas (n : Nat) : String :=
  if n = 0 then "0"
  else
    let ds := natDigitsRev n
    String.intercalate ","
      (((chunk3Aux ds.length ds).reverse).map fun g =>
        String.mk ((g.reverse).map Nat.digitChar))

/-- Round to the nearest integer, ties to even — the rounding of Python's
fixed-point float formatting. -/
def roundHalfEven (q : ℚ) : ℤ :=
  let f := ⌊q⌋
  let r := q - f
  if r < 1 / 2 then f
  else if 1 / 2 < r then f + 1
  else if f % 2 = 0 then f else f + 1

/-- Python `f"\x7bamount:,.2f\x7d"` on a nonnegative amount: round to cents,
thousands-grouped integer part, dot, two-digit cents part. -/
def fmtFixed2Nonneg (q : ℚ) : String :=
  let c := (roundHalfEven (q * 100)).toNat
  withCommas (c / 100) ++ "." ++
    String.mk [Nat.digitChar (c % 100 / 10), Nat.digitChar (c % 10)]

/-- Python `f"\x7bamount:,.2f\x7d"`: sign, then the nonnegative format. -/
def fmtFixed2 (q : ℚ) : String :=
  if q < 0 then "-" ++ fmtFixed2Nonneg (-q) else fmtFixed2Nonneg q

/-- Model of `InvoiceGenerator.format_currency` on the numeric path: the AED prefix,
the fixed-point format, and the slash-dash suffix. -/
def format_currency (amount : ℚ) : String := "AED " ++ fmtFixed2 amount ++ "/-"

/-! ## `modules/workflow.py` -/

/-- The checks of `WorkflowManager.validate_step` in source order, returning
the message of the first failing check (each failing check in the Python
sets `error` to its message and returns at once, so only the first failure
is observable). `startswith('VREB')` is the first-four-characters test,
`[4:].isdigit()` is `pyIsdigit` on the remaining characters, and
`'@' not in email` is character membership. -/
def validateError (s : WorkflowState) : Option String :=
  if s.customer.invoice_number = "" then
    some "Invoice number is required"
  else if s.customer.invoice_number.data.take 4 ≠ "VREB".data then
    some "Invoice number must start with 'VREB'"
  else if pyIsdigit (s.customer.invoice_number.data.drop 4) = false then
    some "Invoice number must be in format 'VREB####'"
  else if s.customer.bill_to_party_name = "" then
    some "Bill To Party Name is required"
  else if s.customer.bill_to_party_email = "" then
    some "Bill To Party Email is required"
  else if s.customer.bill_to_party_address_1 = "" then
    some "Bill To Party Address Line 1 is required"
  else if s.customer.bill_to_party_address_2 = "" then
    some "Bill To Party Address Line 2 is required"
  else if s.customer.bill_to_party_trn = "" then
    some "Bill To Party TRN is required"
  else if s.customer.tenant_name = "" then
    some "Tenant Name is required"
  else if ¬ ('@' ∈ s.customer.bill_to_party_email.data) then
    some "Invalid email format"
  else if s.invoice.rental_price ≤ 0 then
    some "Rental price must be greater than 0"
  else if s.invoice.commission_rate ≤ 0 then
    some "Commission rate must be greater than 0"
  else none

/-- Model of `WorkflowManager.validate_step`: the first failing check sets `error`
to its message and the step returns at once; when every check passes,
`validation_status` is set and `error` is left untouched. -/
def validate_step (now : String) (s : WorkflowState) : WorkflowState :=
  match validateError s with
  | some m => { s with error := some m }
  | none =>
    { s with validation_status := some { is_valid := true, validated_at := now } }

/-- Model of `WorkflowManager.generate_invoice_step`: on success records the creation
status, clears `error` and marks the invoice `Generated`; a raised exception
is converted to a stage-prefixed `error`. -/
def generate_invoice_step (gen : WorkflowState → Except String String)
    (now : String) (s : WorkflowState) : WorkflowState :=
  match gen s with
  | .ok invoice_path =>
    { s with
      invoice_creation_status :=
        some { is_generated := true, generated_at := now, file_path := invoice_path }
      error := none
      invoice := { s.invoice with status := "Generated" } }
  | .error e => { s with error := some ("Invoice generation failed: " ++ e) }

/-- Model of `WorkflowManager.send_notification_step`: reads the artifact path out of
`invoice_creation_status` (subscripting `None` raises, which the handler
turns into the stage error), calls the email handler and records the
notification status; a raised exception becomes a stage-prefixed `error`. -/
def send_notification_step
    (mail : String → WorkflowState → String → Except String Bool)
    (now : String) (s : WorkflowState) : WorkflowState :=
  match s.invoice_creation_status with
  | none =>
    { s with error := some "Email notification failed: 'NoneType' object is not subscriptable" }
  | some st =>
    match mail s.customer.bill_to_party_email s st.file_path with
    | .ok email_sent =>
      { s with
        email_notification_status :=
          some { is_sent := email_sent, sent_at := now,
                 recipient := s.customer.bill_to_party_email } }
    | .error e => { s with error := some ("Email notification failed: " ++ e) }

/-- Python truthiness of the `error` slot combined with the
`!= "Duplicate customer ID"` test guarding the first stage boundary of
`run_workflow`. -/
def haltAfterValidate (e : Option String) : Bool :=
  match e with
  | none => false
  | some m => !(m == "") && !(m == "Duplicate customer ID")

/-- Python truthiness of the `error` slot (`if workflow_state.error:`). -/
def haltOnError (e : Option String) : Bool :=
  match e with
  | none => false
  | some m => !(m == "")

/-- Model of `WorkflowManager.run_workflow`: validate, generate, notify in order,
returning early at each stage boundary on a (truthy) error; `completed` is
set only after all three stages have run without halting. The `save_record`
call is commented out in the source, and the surrounding `try` is
unreachable in this pure model because every stage is total. -/
def run_workflow (gen : WorkflowState → Except String String)
    (mail : String → WorkflowState → String → Except String Bool)
    (now : String) (s : WorkflowState) : WorkflowState :=
  let s1 := validate_step now s
  if haltAfterValidate s1.error then s1
  else
    let s2 := generate_invoice_step gen now s1
    if haltOnError s2.error then s2
    else
      let s3 := send_notification_step mail now s2
      if haltOnError s3.error then s3
      else { s3 with completed := true }

/-! ## `modules/data_manager.py` -/

/-- One row of the tabular store `data/invoices.csv`, in the fixed column
schema of `DataManager.ensure_data_file`. -/
structure Row where
  invoice_number : String
  bill_to_party_name : String
  bill_to_party_email : String
  bill_to_party_address_1 : String
  bill_to_party_address_2 : String
  bill_to_party_trn : String
  tenant_name : String
  invoice_date : String
  property_name : String
  rental_price : ℚ
  commission_rate : ℚ
  tax_amount : ℚ
  total_amount : ℚ
  status : String
  payment_date : String
  terms : String
  vat_rate : ℚ
  created_at : String
  updated_at : String
  deriving DecidableEq, Repr

/-- The `record` dict built inside `DataManager.save_record` from the
workflow state, with `terms`/`vat_rate` taken from the static config and
both timestamps set to `now`. -/
def mkRecordRow (d : WorkflowState) (now : String) : Row :=
  { invoice_number := d.customer.invoice_number
    bill_to_party_name := d.customer.bill_to_party_name
    bill_to_party_email := d.customer.bill_to_party_email
    bill_to_party_address_1 := d.customer.bill_to_party_address_1
    bill_to_party_address_2 := d.customer.bill_to_party_address_2
    bill_to_party_trn := d.customer.bill_to_party_trn
    tenant_name := d.customer.tenant_name
    invoice_date := d.invoice.invoice_date
    property_name := d.invoice.property_name
    rental_price := d.invoice.rental_price
    commission_rate := d.invoice.commission_rate
    tax_amount := d.invoice.tax_amount
    total_amount := d.invoice.total_amount
    status := d.invoice.status
    payment_date := d.invoice.payment_date
    terms := InvoiceConfig.TERMS
    vat_rate := InvoiceConfig.VAT_RATE
    created_at := now
    updated_at := now }

/-- Model of `DataManager.save_record` acting on the store contents: when some row
already carries the record's invoice number, `df.loc[mask] = record`
overwrites every such row in place; otherwise `df.loc[len(df)] = record`
appends. (The Python return value, a dynamically-typed object built by
`create_workflow_state`, is not modelled; the claims are about the store.) -/
def save_record (now : String) (d : WorkflowState) (df : List Row) : List Row :=
  let rec_ := mkRecordRow d now
  if df.any (fun row => row.invoice_number == d.customer.invoice_number) then
    df.map fun row =>
      if row.invoice_number == d.customer.invoice_number then rec_ else row
  else df ++ [rec_]

/-- Model of `DataManager.get_invoice`: filter the store by invoice number, take the
last matching row (`iloc[-1]`) and rebuild a `WorkflowState` from it; the
pydantic model leaves the stage slots, `error` and `completed` at their
defaults (the `company`/`bank` keyword arguments are discarded by the
model). -/
def get_invoice (invoice_number : String) (df : List Row) : Option WorkflowState :=
  match (df.filter fun row => row.invoice_number == invoice_number).getLast? with
  | none => none
  | some r =>
    some
      { customer :=
          { invoice_number := r.invoice_number
            bill_to_party_name := r.bill_to_party_name
            bill_to_party_email := r.bill_to_party_email
            bill_to_party_address_1 := r.bill_to_party_address_1
            bill_to_party_address_2 := r.bill_to_party_address_2
            bill_to_party_trn := r.bill_to_party_trn
            tenant_name := r.tenant_name }
        invoice :=
          { invoice_date := r.invoice_date
            property_name := r.property_name
            rental_price := r.rental_price
            commission_rate := r.commission_rate
            tax_amount := r.tax_amount
            total_amount := r.total_amount
            status := r.status
            payment_date := r.payment_date
            terms := r.terms
            vat_rate := r.vat_rate } }

/-! ## `modules/kyc_manager.py`, declaration section -/

/-- Python `str.split()` with no argument: split on whitespace runs,
dropping empty pieces. -/
def pySplitWs (s : String) : List String :=
  (s.split Char.isWhitespace).filter fun w => w ≠ ""

/-- The word-wrapping loop of `KYCManager._add_declaration`, producing the
lines as word groups: each word is measured with one trailing space; a word
that still fits is appended to the current line, otherwise the current line
is flushed (even when empty) and the word starts a new line; a nonempty
final line is flushed at the end. -/
def wrapAux (w : String → ℚ) (maxWidth : ℚ) :
    List String → List String → ℚ → List (List String)
  | [], current_line, _ => if current_line = [] then [] else [current_line]
  | word :: rest, current_line, line_width =>
    let word_width := w (word ++ " ")
    if line_width + word_width ≤ maxWidth then
      wrapAux w maxWidth rest (current_line ++ [word]) (line_width + word_width)
    else
      current_line :: wrapAux w maxWidth rest [word] word_width

/-- The `lines` list of `_add_declaration`: word groups joined with single
spaces, wrapped at the fixed maximum width 500, starting from an empty
current line of width 0. -/
def declarationLines (w : String → ℚ) (text : String) : List String :=
  (wrapAux w 500 (pySplitWs text) [] 0).map fun g => String.intercalate " " g

/-- The `text_height` of the declaration text box:
`len(lines) * 15 + 10`. -/
def declarationTextHeight (w : String → ℚ) (text : String) : Nat :=
  (declarationLines w text).length * 15 + 10

/-! ## Helper lemmas -/

/-- A string with a nonempty literal head appended to anything is
nonempty. -/
theorem append_ne_empty_of_left {a : String} (b : String) (h : a.length ≠ 0) :
    a ++ b ≠ "" := by
  intro hm
  have hlen := congrArg String.length hm
  rw [String.length_append] at hlen
  simp at hlen
  exact absurd hlen.1 h

/-- Every message `validateError` can produce is nonempty and differs from
`"Duplicate customer ID"`. -/
theorem validateError_shape (s : WorkflowState) (m : String)
    (h : validateError s = some m) :
    (m == "") = false ∧ (m == "Duplicate customer ID") = false := by
  unfold validateError at h
  by_cases c1 : s.customer.invoice_number = ""
  · rw [if_pos c1] at h
    injection h with h1
    subst h1
    exact ⟨by decide, by decide⟩
  rw [if_neg c1] at h
  by_cases c2 : List.take 4 s.customer.invoice_number.data ≠ "VREB".data
  · rw [if_pos c2] at h
    injection h with h1
    subst h1
    exact ⟨by decide, by decide⟩
  rw [if_neg c2] at h
  by_cases c3 : pyIsdigit (List.drop 4 s.customer.invoice_number.data) = false
  · rw [if_pos c3] at h
    injection h with h1
    subst h1
    exact ⟨by decide, by decide⟩
  rw [if_neg c3] at h
  by_cases c4 : s.customer.bill_to_party_name = ""
  · rw [if_pos c4] at h
    injection h with h1
    subst h1
    exact ⟨by decide, by decide⟩
  rw [if_neg c4] at h
  by_cases c5 : s.customer.bill_to_party_email = ""
  · rw [if_pos c5] at h
    injection h with h1
    subst h1
    exact ⟨by decide, by decide⟩
  rw [if_neg c5] at h
  by_cases c6 : s.customer.bill_to_party_address_1 = ""
  · rw [if_pos c6] at h
    injection h with h1
    subst h1
    exact ⟨by decide, by decide⟩
  rw [if_neg c6] at h
  by_cases c7 : s.customer.bill_to_party_address_2 = ""
  · rw [if_pos c7] at h
    injection h with h1
    subst h1
    exact ⟨by decide, by decide⟩
  rw [if_neg c7] at h
  by_cases c8 : s.customer.bill_to_party_trn = ""
  · rw [if_pos c8] at h
    injection h with h1
    subst h1
    exact ⟨by decide, by decide⟩
  rw [if_neg c8] at h
  by_cases c9 : s.customer.tenant_name = ""
  · rw [if_pos c9] at h
    injection h with h1
    subst h1
    exact ⟨by decide, by decide⟩
  rw [if_neg c9] at h
  by_cases c10 : ¬ ('@' ∈ s.customer.bill_to_party_email.data)
  · rw [if_pos c10] at h
    injection h with h1
    subst h1
    exact ⟨by decide, by decide⟩
  rw [if_neg c10] at h
  by_cases c11 : s.invoice.rental_price ≤ 0
  · rw [if_pos c11] at h
    injection h with h1
    subst h1
    exact ⟨by decide, by decide⟩
  rw [if_neg c11] at h
  by_cases c12 : s.invoice.commission_rate ≤ 0
  · rw [if_pos c12] at h
    injection h with h1
    subst h1
    exact ⟨by decide, by decide⟩
  rw [if_neg c12] at h
  exact Option.noConfusion h

/-- Equation for `validate_step` on a failing check. -/
theorem validate_step_eq_error {s : WorkflowState} {m : String} (now : String)
    (hm : validateError s = some m) :
    validate_step now s = { s with error := some m } := by
  unfold validate_step
  rw [hm]

/-- Equation for `validate_step` when every check passes. -/
theorem validate_step_eq_ok {s : WorkflowState} (now : String)
    (hm : validateError s = none) :
    validate_step now s =
      { s with validation_status := some { is_valid := true, validated_at := now } } := by
  unfold validate_step
  rw [hm]

/-- Step `validate_step` never touches `completed`, the generation and
notification status slots, the customer or the invoice. -/
theorem validate_step_preserves (now : String) (s : WorkflowState) :
    (validate_step now s).completed = s.completed ∧
    (validate_step now s).invoice_creation_status = s.invoice_creation_status ∧
    (validate_step now s).email_notification_status = s.email_notification_status ∧
    (validate_step now s).customer = s.customer ∧
    (validate_step now s).invoice = s.invoice := by
  cases hv : validateError s with
  | none =>
    rw [validate_step_eq_ok now hv]
    exact ⟨rfl, rfl, rfl, rfl, rfl⟩
  | some m =>
    rw [validate_step_eq_error now hv]
    exact ⟨rfl, rfl, rfl, rfl, rfl⟩

/-- Starting from an error-free state, `validate_step` either leaves the
error empty or sets one of its literal messages, and the first stage
boundary of `run_workflow` halts on every such message. -/
theorem validate_step_error_cases (now : String) (s : WorkflowState)
    (h : s.error = none) :
    (validate_step now s).error = none ∨
      haltAfterValidate (validate_step now s).error = true := by
  cases hv : validateError s with
  | none =>
    left
    rw [validate_step_eq_ok now hv]
    exact h
  | some m =>
    right
    obtain ⟨hm1, hm2⟩ := validateError_shape s m hv
    rw [validate_step_eq_error now hv]
    simp [haltAfterValidate, hm1, hm2]

/-- Equation for `generate_invoice_step` on generator success. -/
theorem generate_invoice_step_eq_ok
    {gen : WorkflowState → Except String String} {s : WorkflowState}
    {p : String} (now : String) (hg : gen s = Except.ok p) :
    generate_invoice_step gen now s =
      { s with
        invoice_creation_status :=
          some { is_generated := true, generated_at := now, file_path := p }
        error := none
        invoice := { s.invoice with status := "Generated" } } := by
  unfold generate_invoice_step
  rw [hg]

/-- Equation for `generate_invoice_step` on a raising generator. -/
theorem generate_invoice_step_eq_error
    {gen : WorkflowState → Except String String} {s : WorkflowState}
    {e : String} (now : String) (hg : gen s = Except.error e) :
    generate_invoice_step gen now s =
      { s with error := some ("Invoice generation failed: " ++ e) } := by
  unfold generate_invoice_step
  rw [hg]

/-- Step `generate_invoice_step` either clears the error or sets a
generation-prefixed message. -/
theorem generate_invoice_step_error_shape
    (gen : WorkflowState → Except String String) (now : String)
    (s : WorkflowState) :
    (generate_invoice_step gen now s).error = none ∨
      ∃ e, (generate_invoice_step gen now s).error =
        some ("Invoice generation failed: " ++ e) := by
  cases hg : gen s with
  | ok p => rw [generate_invoice_step_eq_ok now hg]; exact Or.inl rfl
  | error e => rw [generate_invoice_step_eq_error now hg]; exact Or.inr ⟨e, rfl⟩

/-- Step `generate_invoice_step` never touches `completed`, the notification
status or the customer. -/
theorem generate_invoice_step_preserves
    (gen : WorkflowState → Except String String) (now : String)
    (s : WorkflowState) :
    (generate_invoice_step gen now s).completed = s.completed ∧
    (generate_invoice_step gen now s).email_notification_status =
      s.email_notification_status ∧
    (generate_invoice_step gen now s).customer = s.customer := by
  cases hg : gen s with
  | ok p => rw [generate_invoice_step_eq_ok now hg]; exact ⟨rfl, rfl, rfl⟩
  | error e => rw [generate_invoice_step_eq_error now hg]; exact ⟨rfl, rfl, rfl⟩

/-- Equation for `send_notification_step` when no generation status is
present (`None` subscripting raises). -/
theorem send_notification_step_eq_none
    {mail : String → WorkflowState → String → Except String Bool}
    {s : WorkflowState} (now : String) (hst : s.invoice_creation_status = none) :
    send_notification_step mail now s =
      { s with
        error :=
          some "Email notification failed: 'NoneType' object is not subscriptable" } := by
  unfold send_notification_step
  rw [hst]

/-- Equation for `send_notification_step` when the handler returns. -/
theorem send_notification_step_eq_ok
    {mail : String → WorkflowState → String → Except String Bool}
    {s : WorkflowState} {st : CreationStatus} {b : Bool} (now : String)
    (hst : s.invoice_creation_status = some st)
    (hm : mail s.customer.bill_to_party_email s st.file_path = Except.ok b) :
    send_notification_step mail now s =
      { s with
        email_notification_status :=
          some { is_sent := b, sent_at := now,
                 recipient := s.customer.bill_to_party_email } } := by
  simp only [send_notification_step, hst, hm]

/-- Equation for `send_notification_step` when the handler raises. -/
theorem send_notification_step_eq_error
    {mail : String → WorkflowState → String → Except String Bool}
    {s : WorkflowState} {st : CreationStatus} {e : String} (now : String)
    (hst : s.invoice_creation_status = some st)
    (hm : mail s.customer.bill_to_party_email s st.file_path = Except.error e) :
    send_notification_step mail now s =
      { s with error := some ("Email notification failed: " ++ e) } := by
  simp only [send_notification_step, hst, hm]

/-- Step `send_notification_step` either leaves the error slot alone or sets a
notification-prefixed message. -/
theorem send_notification_step_error_shape
    (mail : String → WorkflowState → String → Except String Bool)
    (now : String) (s : WorkflowState) :
    (send_notification_step mail now s).error = s.error ∨
      ∃ e, (send_notification_step mail now s).error =
        some ("Email notification failed: " ++ e) := by
  cases hst : s.invoice_creation_status with
  | none =>
    rw [send_notification_step_eq_none now hst]
    exact Or.inr ⟨"'NoneType' object is not subscriptable", rfl⟩
  | some st =>
    cases hm : mail s.customer.bill_to_party_email s st.file_path with
    | ok b => rw [send_notification_step_eq_ok now hst hm]; exact Or.inl rfl
    | error e => rw [send_notification_step_eq_error now hst hm]; exact Or.inr ⟨e, rfl⟩

/-- Step `send_notification_step` never touches `completed` or the generation
status. -/
theorem send_notification_step_preserves
    (mail : String → WorkflowState → String → Except String Bool)
    (now : String) (s : WorkflowState) :
    (send_notification_step mail now s).completed = s.completed ∧
    (send_notification_step mail now s).invoice_creation_status =
      s.invoice_creation_status := by
  cases hst : s.invoice_creation_status with
  | none => rw [send_notification_step_eq_none now hst]; exact ⟨rfl, hst⟩
  | some st =>
    cases hm : mail s.customer.bill_to_party_email s st.file_path with
    | ok b => rw [send_notification_step_eq_ok now hst hm]; exact ⟨rfl, hst⟩
    | error e => rw [send_notification_step_eq_error now hst hm]; exact ⟨rfl, hst⟩

/-- A stage-prefixed error message makes `haltOnError` fire. -/
theorem haltOnError_of_prefixed {o : Option String} (a e : String)
    (ha : a.length ≠ 0) (h : o = some (a ++ e)) : haltOnError o = true := by
  rw [h]
  simp [haltOnError]
  exact append_ne_empty_of_left e ha

/-- Concrete test fixtures used by the witnesses. -/
def sampleCustomer : Customer :=
  { invoice_number := "VREB1234"
    bill_to_party_name := "John Doe"
    bill_to_party_email := "john@example.com"
    bill_to_party_address_1 := "Street 1"
    bill_to_party_address_2 := "Dubai"
    bill_to_party_trn := "123456789012345"
    tenant_name := "Jane Tenant" }

/-- Concrete invoice fixture used by the witnesses. -/
def sampleInvoice : Invoice :=
  { invoice_date := "01/01/2024"
    property_name := "Villa Rosa"
    rental_price := 100000
    commission_rate := 1000
    tax_amount := 50
    total_amount := 1050
    status := "Pending"
    payment_date := ""
    terms := "Due on Receipt"
    vat_rate := 5 / 100 }

/-- Concrete workflow-state fixture used by the witnesses. -/
def sampleState : WorkflowState :=
  { customer := sampleCustomer, invoice := sampleInvoice }

/-! ## Claim theorems -/

/-- C5: `calculate_tax_and_total` at commission rate 1000.00 with
`VAT_RATE = 0.05` yields tax 50.00 and total 1050.00; in general the tax is
`rate * VAT_RATE` and the total is `rate + tax`; and `format_currency`
renders 1050.00 as `"AED 1,050.00"` followed by the slash-dash suffix
(thousands-separated, two decimals). -/
theorem tax_total_and_currency_format (rate : ℚ) :
    calculate_tax_and_total 1000 = (50, 1050) ∧
    (calculate_tax_and_total rate).1 = rate * InvoiceConfig.VAT_RATE ∧
    (calculate_tax_and_total rate).2 = rate + (calculate_tax_and_total rate).1 ∧
    format_currency 1050 = "AED 1,050.00/-" := by
  refine ⟨?_, rfl, rfl, ?_⟩
  · unfold calculate_tax_and_total InvoiceConfig.VAT_RATE
    norm_num
  · have h : roundHalfEven ((1050 : ℚ) * 100) = 105000 := by
      unfold roundHalfEven
      norm_num
    unfold format_currency fmtFixed2 fmtFixed2Nonneg
    rw [if_neg (by norm_num : ¬ (1050 : ℚ) < 0), h]
    decide

/-- C10: whenever the generator call inside `generate_invoice_step`
returns successfully, the step sets `error` to `None`, erasing any error
that was present on entry. -/
theorem generate_success_clears_error
    (gen : WorkflowState → Except String String) (now p : String)
    (s : WorkflowState) (h : gen s = Except.ok p) :
    (generate_invoice_step gen now s).error = none := by
  simp [generate_invoice_step, h]

/-- Witness for C10 at a state whose `error` is set on entry. -/
theorem generate_success_clears_error_witness :
    (generate_invoice_step (fun _ => Except.ok "pdfs/invoices/VREB1234.pdf")
      "2024-01-01 00:00:00" { sampleState with error := some "stale error" }).error
      = none :=
  generate_success_clears_error _ "2024-01-01 00:00:00"
    "pdfs/invoices/VREB1234.pdf" _ rfl

/-- C4: when the generator raises, `generate_invoice_step` returns normally
with `error` set to the generation-failure-prefixed message and nothing
else changed — in particular the invoice `status` is not `'Generated'`-ified
and the generation-status slot stays as it was; `status` becomes
`Generated` (with the status slot filled) exactly on successful return. -/
theorem generate_invoice_step_error_handling
    (gen : WorkflowState → Except String String) (now : String)
    (s : WorkflowState) (e p : String) :
    (gen s = Except.error e →
      generate_invoice_step gen now s =
        { s with error := some ("Invoice generation failed: " ++ e) }) ∧
    (gen s = Except.ok p →
      (generate_invoice_step gen now s).invoice.status = "Generated" ∧
      (generate_invoice_step gen now s).invoice_creation_status =
        some { is_generated := true, generated_at := now, file_path := p }) := by
  constructor
  · intro h
    simp [generate_invoice_step, h]
  · intro h
    simp [generate_invoice_step, h]

/-- Witness for C4: a raising generator produces exactly the stage error,
leaving status and the generation slot untouched. -/
theorem generate_invoice_step_error_handling_witness :
    generate_invoice_step (fun _ => Except.error "disk full")
      "2024-01-01 00:00:00" sampleState =
      { sampleState with error := some "Invoice generation failed: disk full" } :=
  (generate_invoice_step_error_handling _ "2024-01-01 00:00:00" sampleState
    "disk full" "unused").1 rfl

/-- The wrapping loop partitions the word list: joining the produced groups
gives back exactly the pending line followed by the remaining words. -/
theorem wrapAux_flatten (w : String → ℚ) (maxWidth : ℚ) :
    ∀ (ws current_line : List String) (line_width : ℚ),
      (wrapAux w maxWidth ws current_line line_width).flatten =
        current_line ++ ws := by
  intro ws
  induction ws with
  | nil =>
    intro cur lw
    by_cases h : cur = [] <;> simp [wrapAux, h]
  | cons word rest ih =>
    intro cur lw
    simp only [wrapAux]
    split
    · rw [ih]
      simp
    · simp [ih]

/-- C8: the declaration word-wrap never splits a word — the produced line
groups concatenate back to exactly the input word list, each rendered line
being those whole words joined by spaces — and the drawn text box height is
`15 * lineCount + 10`. -/
theorem declaration_wrap_no_word_split (w : String → ℚ) (text : String) :
    (wrapAux w 500 (pySplitWs text) [] 0).flatten = pySplitWs text ∧
    declarationLines w text =
      (wrapAux w 500 (pySplitWs text) [] 0).map (fun g => String.intercalate " " g) ∧
    declarationTextHeight w text = 15 * (declarationLines w text).length + 10 := by
  refine ⟨?_, rfl, ?_⟩
  · simpa using wrapAux_flatten w 500 (pySplitWs text) [] 0
  · unfold declarationTextHeight
    omega

/-- Constant successful generator oracle for the witnesses. -/
def sampleGen : WorkflowState → Except String String :=
  fun _ => Except.ok "pdfs/invoices/VREB1234.pdf"

/-- Constant successful email oracle for the witnesses. -/
def sampleMail : String → WorkflowState → String → Except String Bool :=
  fun _ _ _ => Except.ok true

/-- Email oracle that raises a transport exception, for the witnesses. -/
def raisingMail : String → WorkflowState → String → Except String Bool :=
  fun _ _ _ => Except.error "SMTP connection failed"

/-- C1: `run_workflow` runs validate, generate, notify in that order; an
error set by validation stops both later stages and leaves `completed`
false; an error set by generation stops notification and leaves `completed`
false; when no stage errors the result is the composition of the three
stages with `completed := true`; and `completed = true` implies the final
`error` is empty. -/
theorem run_workflow_stage_order
    (gen : WorkflowState → Except String String)
    (mail : String → WorkflowState → String → Except String Bool)
    (now : String) (s : WorkflowState)
    (herr : s.error = none) (hcomp : s.completed = false) :
    ((validate_step now s).error ≠ none →
      run_workflow gen mail now s = validate_step now s ∧
      (run_workflow gen mail now s).completed = false ∧
      (run_workflow gen mail now s).invoice_creation_status =
        s.invoice_creation_status ∧
      (run_workflow gen mail now s).email_notification_status =
        s.email_notification_status) ∧
    ((validate_step now s).error = none →
      (generate_invoice_step gen now (validate_step now s)).error ≠ none →
      run_workflow gen mail now s =
        generate_invoice_step gen now (validate_step now s) ∧
      (run_workflow gen mail now s).completed = false ∧
      (run_workflow gen mail now s).email_notification_status =
        s.email_notification_status) ∧
    ((validate_step now s).error = none →
      (generate_invoice_step gen now (validate_step now s)).error = none →
      (send_notification_step mail now
          (generate_invoice_step gen now (validate_step now s))).error ≠ none →
      run_workflow gen mail now s =
        send_notification_step mail now
          (generate_invoice_step gen now (validate_step now s)) ∧
      (run_workflow gen mail now s).completed = false) ∧
    ((validate_step now s).error = none →
      (generate_invoice_step gen now (validate_step now s)).error = none →
      (send_notification_step mail now
          (generate_invoice_step gen now (validate_step now s))).error = none →
      run_workflow gen mail now s =
        { send_notification_step mail now
            (generate_invoice_step gen now (validate_step now s)) with
          completed := true }) ∧
    ((run_workflow gen mail now s).completed = true →
      (run_workflow gen mail now s).error = none) := by
  refine ⟨?_, ?_, ?_, ?_, ?_⟩
  · intro h1
    rcases validate_step_error_cases now s herr with h | hhalt
    · exact absurd h h1
    · have hres : run_workflow gen mail now s = validate_step now s := by
        simp [run_workflow, hhalt]
      refine ⟨hres, ?_, ?_, ?_⟩
      · rw [hres, (validate_step_preserves now s).1, hcomp]
      · rw [hres, (validate_step_preserves now s).2.1]
      · rw [hres, (validate_step_preserves now s).2.2.1]
  · intro h1 h2
    have g1 : haltAfterValidate (validate_step now s).error = false := by
      rw [h1]
      rfl
    rcases generate_invoice_step_error_shape gen now (validate_step now s) with
      h | ⟨e, he⟩
    · exact absurd h h2
    · have g2 : haltOnError
          (generate_invoice_step gen now (validate_step now s)).error = true :=
        haltOnError_of_prefixed "Invoice generation failed: " e (by decide) he
      have hres : run_workflow gen mail now s =
          generate_invoice_step gen now (validate_step now s) := by
        simp [run_workflow, g1, g2]
      refine ⟨hres, ?_, ?_⟩
      · rw [hres, (generate_invoice_step_preserves gen now _).1,
          (validate_step_preserves now s).1, hcomp]
      · rw [hres, (generate_invoice_step_preserves gen now _).2.1,
          (validate_step_preserves now s).2.2.1]
  · intro h1 h2 h3
    have g1 : haltAfterValidate (validate_step now s).error = false := by
      rw [h1]
      rfl
    have g2 : haltOnError
        (generate_invoice_step gen now (validate_step now s)).error = false := by
      rw [h2]
      rfl
    rcases send_notification_step_error_shape mail now
        (generate_invoice_step gen now (validate_step now s)) with h | ⟨e, he⟩
    · rw [h2] at h
      exact absurd h h3
    · have g3 : haltOnError
          (send_notification_step mail now
            (generate_invoice_step gen now (validate_step now s))).error = true :=
        haltOnError_of_prefixed "Email notification failed: " e (by decide) he
      have hres : run_workflow gen mail now s =
          send_notification_step mail now
            (generate_invoice_step gen now (validate_step now s)) := by
        simp [run_workflow, g1, g2, g3]
      refine ⟨hres, ?_⟩
      rw [hres, (send_notification_step_preserves mail now _).1,
        (generate_invoice_step_preserves gen now _).1,
        (validate_step_preserves now s).1, hcomp]
  · intro h1 h2 h3
    have g1 : haltAfterValidate (validate_step now s).error = false := by
      rw [h1]
      rfl
    have g2 : haltOnError
        (generate_invoice_step gen now (validate_step now s)).error = false := by
      rw [h2]
      rfl
    have g3 : haltOnError
        (send_notification_step mail now
          (generate_invoice_step gen now (validate_step now s))).error = false := by
      rw [h3]
      rfl
    simp [run_workflow, g1, g2, g3]
  · intro hc
    by_cases g1 : haltAfterValidate (validate_step now s).error = true
    · have hres : run_workflow gen mail now s = validate_step now s := by
        simp [run_workflow, g1]
      rw [hres, (validate_step_preserves now s).1, hcomp] at hc
      exact absurd hc (by decide)
    · by_cases g2 : haltOnError
          (generate_invoice_step gen now (validate_step now s)).error = true
      · have hres : run_workflow gen mail now s =
            generate_invoice_step gen now (validate_step now s) := by
          simp [run_workflow, g1, g2]
        rw [hres, (generate_invoice_step_preserves gen now _).1,
          (validate_step_preserves now s).1, hcomp] at hc
        exact absurd hc (by decide)
      · have h2none :
            (generate_invoice_step gen now (validate_step now s)).error = none := by
          rcases generate_invoice_step_error_shape gen now (validate_step now s)
            with h | ⟨e, he⟩
          · exact h
          · exact absurd
              (haltOnError_of_prefixed "Invoice generation failed: " e (by decide) he)
              g2
        by_cases g3 : haltOnError
            (send_notification_step mail now
              (generate_invoice_step gen now (validate_step now s))).error = true
        · have hres : run_workflow gen mail now s =
              send_notification_step mail now
                (generate_invoice_step gen now (validate_step now s)) := by
            simp [run_workflow, g1, g2, g3]
          rw [hres, (send_notification_step_preserves mail now _).1,
            (generate_invoice_step_preserves gen now _).1,
            (validate_step_preserves now s).1, hcomp] at hc
          exact absurd hc (by decide)
        · have h3none :
              (send_notification_step mail now
                (generate_invoice_step gen now (validate_step now s))).error = none := by
            rcases send_notification_step_error_shape mail now
                (generate_invoice_step gen now (validate_step now s)) with h | ⟨e, he⟩
            · rw [h2none] at h
              exact h
            · exact absurd
                (haltOnError_of_prefixed "Email notification failed: " e (by decide) he)
                g3
          have hres : run_workflow gen mail now s =
              { send_notification_step mail now
                  (generate_invoice_step gen now (validate_step now s)) with
                completed := true } := by
            simp [run_workflow, g1, g2, g3]
          rw [hres]
          exact h3none

/-- Fixture with an empty invoice number, failing validation. -/
def badState : WorkflowState :=
  { sampleState with customer := { sampleCustomer with invoice_number := "" } }

/-- Witness for C1: on a record failing validation, the run returns the
post-validation state itself and is not marked complete. -/
theorem run_workflow_stage_order_witness :
    run_workflow sampleGen sampleMail "2024-01-01 00:00:00" badState =
      validate_step "2024-01-01 00:00:00" badState ∧
    (run_workflow sampleGen sampleMail "2024-01-01 00:00:00" badState).completed
      = false := by
  have h :=
    (run_workflow_stage_order sampleGen sampleMail "2024-01-01 00:00:00" badState
      rfl rfl).1 (by decide)
  exact ⟨h.1, h.2.1⟩

/-- C2: when validation and generation succeed but the email handler raises
during notification, the returned state carries the notification-prefixed
error, is not marked complete, and still holds the generation status
recorded by the earlier stage. -/
theorem notification_failure_state
    (gen : WorkflowState → Except String String)
    (mail : String → WorkflowState → String → Except String Bool)
    (now p e : String) (s : WorkflowState)
    (hcomp : s.completed = false)
    (hval : (validate_step now s).error = none)
    (hgen : gen (validate_step now s) = Except.ok p)
    (hmail : mail (validate_step now s).customer.bill_to_party_email
        (generate_invoice_step gen now (validate_step now s)) p =
      Except.error e) :
    (run_workflow gen mail now s).error =
      some ("Email notification failed: " ++ e) ∧
    (run_workflow gen mail now s).completed = false ∧
    (run_workflow gen mail now s).invoice_creation_status =
      some { is_generated := true, generated_at := now, file_path := p } := by
  have hs2 := generate_invoice_step_eq_ok now hgen
  have hs2ics : (generate_invoice_step gen now (validate_step now s)).invoice_creation_status =
      some { is_generated := true, generated_at := now, file_path := p } := by
    rw [hs2]
  have hs2err : (generate_invoice_step gen now (validate_step now s)).error = none := by
    rw [hs2]
  have hs2cust : (generate_invoice_step gen now (validate_step now s)).customer =
      (validate_step now s).customer :=
    (generate_invoice_step_preserves gen now _).2.2
  have hmail2 : mail
      (generate_invoice_step gen now (validate_step now s)).customer.bill_to_party_email
      (generate_invoice_step gen now (validate_step now s))
      (CreationStatus.mk true now p).file_path = Except.error e := by
    rw [hs2cust]
    exact hmail
  have hs3 := send_notification_step_eq_error now hs2ics hmail2
  have g1 : haltAfterValidate (validate_step now s).error = false := by
    rw [hval]
    rfl
  have g2 : haltOnError
      (generate_invoice_step gen now (validate_step now s)).error = false := by
    rw [hs2err]
    rfl
  have g3 : haltOnError
      (send_notification_step mail now
        (generate_invoice_step gen now (validate_step now s))).error = true :=
    haltOnError_of_prefixed "Email notification failed: " e (by decide)
      (by rw [hs3])
  have hres : run_workflow gen mail now s =
      send_notification_step mail now
        (generate_invoice_step gen now (validate_step now s)) := by
    simp [run_workflow, g1, g2, g3]
  refine ⟨?_, ?_, ?_⟩
  · rw [hres, hs3]
  · rw [hres, (send_notification_step_preserves mail now _).1,
      (generate_invoice_step_preserves gen now _).1,
      (validate_step_preserves now s).1, hcomp]
  · rw [hres, (send_notification_step_preserves mail now _).2, hs2ics]

/-- Witness for C2 with a concrete raising email oracle. -/
theorem notification_failure_state_witness :
    (run_workflow sampleGen raisingMail "2024-01-01 00:00:00" sampleState).error =
      some ("Email notification failed: " ++ "SMTP connection failed") ∧
    (run_workflow sampleGen raisingMail "2024-01-01 00:00:00" sampleState).completed
      = false ∧
    (run_workflow sampleGen raisingMail "2024-01-01 00:00:00" sampleState).invoice_creation_status =
      some { is_generated := true, generated_at := "2024-01-01 00:00:00",
             file_path := "pdfs/invoices/VREB1234.pdf" } :=
  notification_failure_state sampleGen raisingMail "2024-01-01 00:00:00"
    "pdfs/invoices/VREB1234.pdf" "SMTP connection failed" sampleState
    rfl (by decide) rfl rfl

/-- Characterization of the regex core: `vrebCore l` holds exactly when `l`
is the four characters `VREB` followed by exactly four digits. -/
theorem vrebCore_iff (l : List Char) :
    vrebCore l = true ↔
      ∃ ds : List Char, l = 'V' :: 'R' :: 'E' :: 'B' :: ds ∧
        ds.length = 4 ∧ ds.all Char.isDigit = true := by
  constructor
  · intro h
    simp only [vrebCore, Bool.and_eq_true, beq_iff_eq, decide_eq_true_eq] at h
    obtain ⟨⟨h1, h2⟩, h3⟩ := h
    refine ⟨l.drop 4, ?_, ?_, h3⟩
    · conv_lhs => rw [← List.take_append_drop 4 l]
      rw [h1]
      rfl
    · rw [List.length_drop, h2]
  · rintro ⟨ds, rfl, h4, hd⟩
    simp [vrebCore, hd]
    exact h4

/-- C7 (amended): `validate_invoice_number` accepts exactly the strings
`VREB` followed by four digits, optionally followed by one trailing newline
(Python's `$` also matches just before a final newline); in particular
`"VREB1"` is rejected and `"VREB1234"` is accepted. -/
theorem validate_invoice_number_characterization (s : String) :
    (validate_invoice_number s = true ↔
      (∃ ds : List Char, s.data = 'V' :: 'R' :: 'E' :: 'B' :: ds ∧
        ds.length = 4 ∧ ds.all Char.isDigit = true) ∨
      (∃ ds : List Char, s.data = ('V' :: 'R' :: 'E' :: 'B' :: ds) ++ ['\n'] ∧
        ds.length = 4 ∧ ds.all Char.isDigit = true)) ∧
    validate_invoice_number "VREB1" = false ∧
    validate_invoice_number "VREB1234" = true := by
  refine ⟨?_, by decide, by decide⟩
  unfold validate_invoice_number pyFullMatch
  simp only [Bool.or_eq_true, Bool.and_eq_true, beq_iff_eq]
  constructor
  · rintro (h | ⟨hlast, hcore⟩)
    · exact Or.inl ((vrebCore_iff s.data).mp h)
    · right
      obtain ⟨t, ht⟩ := List.getLast?_eq_some_iff.mp hlast
      obtain ⟨ds, hd, h4, hdig⟩ := (vrebCore_iff s.data.dropLast).mp hcore
      rw [ht, List.dropLast_concat] at hd
      exact ⟨ds, by rw [ht, hd], h4, hdig⟩
  · rintro (⟨ds, hd, h4, hdig⟩ | ⟨ds, hd, h4, hdig⟩)
    · exact Or.inl ((vrebCore_iff s.data).mpr ⟨ds, hd, h4, hdig⟩)
    · right
      constructor
      · rw [hd]
        exact List.getLast?_concat _
      · rw [hd, List.dropLast_concat]
        exact (vrebCore_iff _).mpr ⟨ds, rfl, h4, hdig⟩

/-- Counterexample to C7 as stated: the string `VREB1234` followed by a
newline is accepted by `validate_invoice_number` although it is not `VREB`
followed by exactly four digits (any such string has first four characters
`VREB`, length eight and four digit characters after them; this one has
length nine). -/
theorem validate_invoice_number_newline_counterexample :
    validate_invoice_number "VREB1234\n" = true ∧
    ("VREB1234\n".data.take 4 == "VREB".data &&
      decide ("VREB1234\n".data.length = 8) &&
      ("VREB1234\n".data.drop 4).all Char.isDigit) = false := by decide

/-- Fixture for C9: the customer of `sampleState` with the invoice number
replaced by `VREB` followed by the given characters. -/
def c9State (ds : List Char) : WorkflowState :=
  { sampleState with
    customer :=
      { sampleCustomer with
        invoice_number := String.mk ('V' :: 'R' :: 'E' :: 'B' :: ds) } }

/-- C9: the orchestrator's `validate_step` accepts any invoice number
`VREB` followed by a nonempty run of digits (the remaining fields being
valid), while the standalone `validate_invoice_number` rejects both
`"VREB1"` and `"VREB12345"`; the two embedded format checks are not
equivalent. -/
theorem validators_disagree_on_format (now : String) (ds : List Char)
    (h1 : ds ≠ []) (h2 : ds.all Char.isDigit = true) :
    (validate_step now (c9State ds)).error = none ∧
    (validate_step now (c9State ds)).validation_status =
      some { is_valid := true, validated_at := now } ∧
    validate_invoice_number "VREB1" = false ∧
    validate_invoice_number "VREB12345" = false := by
  have hpd : pyIsdigit ds = true := by
    cases ds with
    | nil => exact absurd rfl h1
    | cons c cs => simp [pyIsdigit, h2]
  have htake : List.take 4 ('V' :: 'R' :: 'E' :: 'B' :: ds) = "VREB".data := rfl
  have hdrop : List.drop 4 ('V' :: 'R' :: 'E' :: 'B' :: ds) = ds := rfl
  have hv : validateError (c9State ds) = none := by
    norm_num [validateError, c9State, sampleState, sampleCustomer, sampleInvoice,
      htake, hdrop, hpd, String.ext_iff]
    simp
  have hvs := validate_step_eq_ok now hv
  refine ⟨?_, by rw [hvs], by decide, by decide⟩
  rw [hvs]
  simp [c9State, sampleState]

/-- Witness for C9 at the one-digit invoice number `VREB1`. -/
theorem validators_disagree_on_format_witness :
    (validate_step "2024-01-01 00:00:00" (c9State ['1'])).error = none ∧
    validate_invoice_number "VREB1" = false := by
  have h := validators_disagree_on_format "2024-01-01 00:00:00" ['1']
    (by decide) (by decide)
  exact ⟨h.1, h.2.2.1⟩

/-- Replacing every matching row by a row that itself matches, then
filtering for matches, yields one copy of the new row per original
match. -/
theorem filter_map_replace (rows : List Row) (key : String) (r : Row)
    (hr : r.invoice_number = key) :
    ((rows.map fun row => if row.invoice_number == key then r else row).filter
        fun row => row.invoice_number == key) =
      List.replicate (rows.countP fun row => row.invoice_number == key) r := by
  simp only [beq_iff_eq]
  induction rows with
  | nil => rfl
  | cons a tl ih =>
    by_cases h : a.invoice_number = key
    · simp [h, List.countP_cons, ih, hr, List.replicate_succ]
    · simp [h, List.countP_cons, ih]

/-- After `save_record`, the rows matching the record's invoice number are
exactly one copy of the freshly built row. -/
theorem save_record_filter (now : String) (d : WorkflowState) (df : List Row)
    (h : (df.countP fun row =>
        row.invoice_number == d.customer.invoice_number) ≤ 1) :
    ((save_record now d df).filter fun row =>
        row.invoice_number == d.customer.invoice_number) = [mkRecordRow d now] := by
  unfold save_record
  by_cases hany : df.any fun row => row.invoice_number == d.customer.invoice_number
  · rw [if_pos hany, filter_map_replace df d.customer.invoice_number _ rfl]
    have hpos : 0 < df.countP fun row =>
        row.invoice_number == d.customer.invoice_number := by
      rw [List.countP_pos_iff]
      obtain ⟨a, ha, hpa⟩ := List.any_eq_true.mp hany
      exact ⟨a, ha, hpa⟩
    have : (df.countP fun row =>
        row.invoice_number == d.customer.invoice_number) = 1 := le_antisymm h hpos
    rw [this]
    rfl
  · rw [if_neg hany, List.filter_append]
    have hnil : (df.filter fun row =>
        row.invoice_number == d.customer.invoice_number) = [] := by
      rw [List.filter_eq_nil_iff]
      intro a ha hpa
      exact hany (List.any_eq_true.mpr ⟨a, ha, hpa⟩)
    rw [hnil]
    simp [mkRecordRow]

/-- C6: on a store holding at most one row for the record's invoice number,
`save_record` leaves exactly one row with that invoice number — overwriting
in place when one existed, appending otherwise — and a subsequent
`get_invoice` returns a state whose customer and invoice fields are the
values passed to that `save_record` (with `terms` and `vat_rate` replaced
by the static configuration values the store writes). -/
theorem save_record_upsert_roundtrip (now : String) (d : WorkflowState)
    (df : List Row)
    (h : (df.countP fun row =>
        row.invoice_number == d.customer.invoice_number) ≤ 1) :
    ((save_record now d df).countP fun row =>
        row.invoice_number == d.customer.invoice_number) = 1 ∧
    (save_record now d df).length =
      (if df.any (fun row => row.invoice_number == d.customer.invoice_number)
        then df.length else df.length + 1) ∧
    get_invoice d.customer.invoice_number (save_record now d df) =
      some
        { customer := d.customer
          invoice :=
            { d.invoice with
              terms := InvoiceConfig.TERMS
              vat_rate := InvoiceConfig.VAT_RATE } } := by
  refine ⟨?_, ?_, ?_⟩
  · rw [List.countP_eq_length_filter, save_record_filter now d df h]
    rfl
  · unfold save_record
    by_cases hany : df.any fun row => row.invoice_number == d.customer.invoice_number
    · rw [if_pos hany]
      simp [hany]
    · rw [if_neg hany]
      simp [hany]
  · unfold get_invoice
    rw [save_record_filter now d df h]
    rfl

/-- Witness for C6: saving into an empty store and reading back. -/
theorem save_record_upsert_roundtrip_witness :
    ((save_record "2024-01-01 00:00:00" sampleState []).countP fun row =>
        row.invoice_number == sampleState.customer.invoice_number) = 1 ∧
    (save_record "2024-01-01 00:00:00" sampleState []).length = 1 ∧
    get_invoice sampleState.customer.invoice_number
        (save_record "2024-01-01 00:00:00" sampleState []) =
      some
        { customer := sampleState.customer
          invoice :=
            { sampleState.invoice with
              terms := InvoiceConfig.TERMS
              vat_rate := InvoiceConfig.VAT_RATE } } := by
  have h := save_record_upsert_roundtrip "2024-01-01 00:00:00" sampleState []
    (by decide)
  exact ⟨h.1, by simpa using h.2.1, h.2.2⟩

/-- Membership in a one-message conditional block. -/
theorem mem_iteSingleton {c : Prop} [Decidable c] {m x : String} :
    (x ∈ (if c then [m] else ([] : List String))) ↔ (c ∧ x = m) := by
  split <;> simp_all

/-- A one-message conditional block is empty exactly when its condition
fails. -/
theorem iteSingleton_eq_nil {c : Prop} [Decidable c] {m : String} :
    ((if c then [m] else ([] : List String)) = []) ↔ ¬ c := by
  split <;> simp_all

/-- C3 (amended): `validate_workflow_state` returns `None` exactly when
every rule passes (not an empty list); on any violation it returns the
full accumulated error list, which is nonempty and contains each rule's
message exactly when that rule is violated — so all violations are
collected, without short-circuiting. -/
theorem validate_workflow_state_amended (s : WorkflowState) :
    (validate_workflow_state s = none ↔ ∀ r ∈ wfRules, r.1 s = true) ∧
    (wfErrors s ≠ [] → validate_workflow_state s = some (wfErrors s)) ∧
    (∀ r ∈ wfRules, (r.2 ∈ wfErrors s ↔ r.1 s = false)) := by
  refine ⟨?_, ?_, ?_⟩
  · have hiff : validate_workflow_state s = none ↔ wfErrors s = [] := by
      unfold validate_workflow_state
      split <;> simp_all
    rw [hiff]
    clear hiff
    simp only [wfErrors, wfRules, List.append_eq_nil, iteSingleton_eq_nil,
      and_assoc, List.mem_cons, List.not_mem_nil, forall_eq_or_imp, forall_eq,
      IsEmpty.forall_iff, and_true]
    refine and_congr ?_ (and_congr ?_ (and_congr ?_ (and_congr ?_ (and_congr ?_
      (and_congr ?_ (and_congr ?_ (and_congr ?_ (and_congr ?_ (and_congr ?_
      (and_congr ?_ (and_congr ?_ (and_congr ?_ (and_congr ?_ (and_congr ?_
      (and_congr ?_ ?_)))))))))))))))
    all_goals simp
    all_goals tauto
  · intro h
    unfold validate_workflow_state
    rw [if_neg h]
  · intro r hr
    simp only [wfRules, List.mem_cons, List.not_mem_nil, or_false] at hr
    rcases hr with rfl | rfl | rfl | rfl | rfl | rfl | rfl | rfl | rfl | rfl |
      rfl | rfl | rfl | rfl | rfl | rfl | rfl <;>
      simp [wfErrors, mem_iteSingleton, List.mem_append]

/-- Counterexample to C3 as stated: on a record satisfying every rule,
`validate_workflow_state` returns `None`, not an empty list. -/
theorem validate_workflow_state_valid_returns_none :
    (wfRules.all fun r => r.1 sampleState) = true ∧
    validate_workflow_state sampleState = none ∧
    validate_workflow_state sampleState ≠ some [] := by
  refine ⟨by decide, by decide, by decide⟩

/-- Fixture violating two independent rules: missing bill-to name and a
malformed email. -/
def twoViolationState : WorkflowState :=
  { sampleState with
    customer :=
      { sampleCustomer with
        bill_to_party_name := ""
        bill_to_party_email := "john.example.com" } }

/-- Witness for C3 (amended): both violations are collected, in source
order, without stopping at the first. -/
theorem validate_workflow_state_amended_witness :
    validate_workflow_state twoViolationState =
      some ["Bill to party name is required", "Invalid email format"] := by
  have h := (validate_workflow_state_amended twoViolationState).2.1 (by decide)
  rw [show wfErrors twoViolationState =
      ["Bill to party name is required", "Invalid email format"] from by decide] at h
  exact h

